import Mathlib

/-!
Shallow embedding of the metrics aggregation and cross-referencing pipeline
of the meta-ads-analyzer repository (src/build_dashboard.py,
src/analyze_ventas.py, src/audit_ventas.py), together with theorems
settling the frozen claims about it.

Numeric values carried as Python floats in the source are modelled as
rationals (ℚ); Python exceptions are modelled as `Option`/`Except` values.
-/

namespace MetaAds

/-! ### Python string primitives

Python `str.strip`, `str.replace` with one-character patterns, `str.lower`
and `str.upper`, modelled on the character list of the string. -/

/-- Models Python `str.strip()`: drop leading and trailing whitespace. -/
def pyStrip (s : String) : String :=
  ⟨((s.data.dropWhile Char.isWhitespace).reverse.dropWhile Char.isWhitespace).reverse⟩

/-- Models Python `str.replace(c, '')` for a one-character pattern `c`:
remove every occurrence of the character. -/
def removeChar (c : Char) (s : String) : String :=
  ⟨s.data.filter (fun x => x ≠ c)⟩

/-- Models Python `str.replace(a, b)` for one-character pattern and
replacement: map every occurrence of `a` to `b`. -/
def replaceChar (a b : Char) (s : String) : String :=
  ⟨s.data.map (fun x => if x = a then b else x)⟩

/-- Models Python `str.lower()` (ASCII range, which covers the data). -/
def pyLower (s : String) : String :=
  ⟨s.data.map Char.toLower⟩

/-- Numeric value of a list of decimal digit characters. -/
def digitsVal (cs : List Char) : ℕ :=
  cs.foldl (fun n c => 10 * n + (c.toNat - 48)) 0

/-- Models Python `float(s)` on plain decimal text: optional sign, integer
digits, optional fractional part. Returns `none` where Python `float`
raises `ValueError` (empty digit text, stray characters). The exact result
is carried as a rational, since every computation the program performs on
the parsed amounts is exact at this scale. -/
def pyFloat? (s : String) : Option ℚ :=
  let signed : Bool × List Char :=
    match s.data with
    | '-' :: rest => (true, rest)
    | '+' :: rest => (false, rest)
    | cs => (false, cs)
  let neg := signed.1
  let cs := signed.2
  let intPart := cs.takeWhile Char.isDigit
  let rest := cs.dropWhile Char.isDigit
  let mag? : Option ℚ :=
    match rest with
    | [] => if intPart.isEmpty then none else some (digitsVal intPart : ℚ)
    | '.' :: frac =>
        if frac.all Char.isDigit && !(intPart.isEmpty && frac.isEmpty) then
          some ((digitsVal intPart : ℚ) + (digitsVal frac : ℚ) / 10 ^ frac.length)
        else none
    | _ => none
  mag?.map (fun q => if neg then -q else q)

/-! ### Currency parser

`parse_cop` (src/analyze_ventas.py lines 5-11) and `parse_cop_value`
(src/build_dashboard.py lines 140-146) have identical bodies:
`s = val.strip().replace('$', '').replace('.', '').replace(',', '.')`,
then `float(s)` with any exception mapped to `0`. -/

/-- Embeds `parse_cop` from src/analyze_ventas.py. -/
def parse_cop (val : String) : ℚ :=
  let s := replaceChar ',' '.' (removeChar '.' (removeChar '$' (pyStrip val)))
  (pyFloat? s).getD 0

/-- Embeds `parse_cop_value` from src/build_dashboard.py (same body as
`parse_cop`). -/
def parse_cop_value (val : String) : ℚ :=
  let s := replaceChar ',' '.' (removeChar '.' (removeChar '$' (pyStrip val)))
  (pyFloat? s).getD 0

/-! ### Metric deriver (src/build_dashboard.py lines 93-128) -/

/-- One `{action_type, value}` pair from the ad platform's `actions` or
`cost_per_action_type` lists. The numeric value is already coerced, as by
the Python `float(a["value"])`. -/
structure ActionEntry where
  action_type : String
  value : ℚ
deriving DecidableEq, Repr

/-- Embeds `get_action_value` (src/build_dashboard.py lines 93-100): linear
scan, value of the first entry whose type matches, `0` otherwise. -/
def get_action_value (actions : List ActionEntry) (ty : String) : ℚ :=
  match actions with
  | [] => 0
  | a :: rest => if a.action_type = ty then a.value else get_action_value rest ty

/-- Embeds `get_cost_per_action` (src/build_dashboard.py lines 103-109):
same first-match scan over the cost-per-action list. -/
def get_cost_per_action (cost_list : List ActionEntry) (ty : String) : ℚ :=
  match cost_list with
  | [] => 0
  | a :: rest => if a.action_type = ty then a.value else get_cost_per_action rest ty

/-- Whether `needle` starts `hay` (helper for the Python `in` substring
test). -/
def strStarts : List Char → List Char → Bool
  | [], _ => true
  | _ :: _, [] => false
  | a :: as, b :: bs => a == b && strStarts as bs

/-- Whether `needle` occurs as a contiguous substring of `hay` (Python
`needle in hay`). -/
def strHas (needle : List Char) : List Char → Bool
  | [] => strStarts needle []
  | b :: bs => strStarts needle (b :: bs) || strHas needle bs

/-- Embeds `infer_objective` (src/build_dashboard.py lines 119-128):
ordered case-insensitive substring markers, first rule wins. -/
def infer_objective (campaign_name : String) : String :=
  let nu := campaign_name.data.map Char.toUpper
  if strHas "TRAF".data nu then "TRAFFIC"
  else if strHas "RECON".data nu || strHas "MENSAJES".data nu then "AWARENESS"
  else if strHas "FORM".data nu || strHas "LEAD".data nu then "LEADS"
  else "OTHER"

/-- Models Python `int()` applied to a float: truncation toward zero. -/
def pytrunc (q : ℚ) : ℤ :=
  if 0 ≤ q then ⌊q⌋ else ⌈q⌉

/-- One raw entry of the campaign insights JSON (`campaign_raw["data"]`),
after the per-field `int(...)`/`float(...)` coercions of
src/build_dashboard.py lines 296-306. -/
structure RawCampaign where
  campaign_name : String
  campaign_id : String
  impressions : ℤ
  clicks : ℤ
  spend : ℚ
  cpc : ℚ
  cpm : ℚ
  ctr : ℚ
  reach : ℤ
  frequency : ℚ
  actions : List ActionEntry
  cost_per_action_type : List ActionEntry
deriving DecidableEq, Repr

/-- The processed per-campaign record appended to `campaigns`
(src/build_dashboard.py lines 321-340). -/
structure Campaign where
  name : String
  id : String
  impressions : ℤ
  clicks : ℤ
  spend : ℚ
  cpc : ℚ
  cpm : ℚ
  ctr : ℚ
  reach : ℤ
  frequency : ℚ
  leads : ℤ
  link_clicks : ℤ
  landing_page_views : ℤ
  video_views : ℤ
  post_engagement : ℤ
  messaging : ℤ
  cpl : ℚ
  objective : String
deriving DecidableEq, Repr

/-- Embeds one iteration of the campaign-processing loop
(src/build_dashboard.py lines 294-340): extract action counters, derive the
CPL with its fallback (`cpl = get_cost_per_action(...); if cpl == 0 and
leads > 0: cpl = spend / leads`, lines 315-317), infer the objective. -/
def processCampaign (c : RawCampaign) : Campaign :=
  let leads := get_action_value c.actions "lead"
  let link_clicks := get_action_value c.actions "link_click"
  let landing_page_views := get_action_value c.actions "landing_page_view"
  let video_views := get_action_value c.actions "video_view"
  let post_engagement := get_action_value c.actions "post_engagement"
  let messaging := get_action_value c.actions "onsite_conversion.total_messaging_connection"
  let cpl0 := get_cost_per_action c.cost_per_action_type "lead"
  let cpl := if cpl0 = 0 ∧ 0 < leads then c.spend / leads else cpl0
  { name := c.campaign_name
    id := c.campaign_id
    impressions := c.impressions
    clicks := c.clicks
    spend := c.spend
    cpc := c.cpc
    cpm := c.cpm
    ctr := c.ctr
    reach := c.reach
    frequency := c.frequency
    leads := pytrunc leads
    link_clicks := pytrunc link_clicks
    landing_page_views := pytrunc landing_page_views
    video_views := pytrunc video_views
    post_engagement := pytrunc post_engagement
    messaging := pytrunc messaging
    cpl := cpl
    objective := infer_objective c.campaign_name }

/-! ### Ventas record loader (src/build_dashboard.py lines 149-176) -/

/-- One sale record as produced by `load_ventas`. -/
structure Venta where
  mes : String
  nombre : String
  asesor : String
  lote : String
  dia_contacto : String
  dia_cierre : String
  dias_cierre : Option ℤ
  fuente : String
  campana : String
  conjunto : String
  anuncio : String
  tipo_campana : String
  precio : ℚ
deriving DecidableEq, Repr

/-- Row-validity predicate of `load_ventas` (src/build_dashboard.py line
159): keep a row unless `len(r) < 13 or not r[0].strip()`. -/
def dashRowKeep (r : List String) : Bool :=
  decide (13 ≤ r.length) && (pyStrip (r.getD 0 "") != "")

/-- Row-validity predicate of src/audit_ventas.py line 9:
`len(r) >= 13 and r[0].strip()`. -/
def auditRowKeep (r : List String) : Bool :=
  decide (13 ≤ r.length) && (pyStrip (r.getD 0 "") != "")

/-- Row-validity predicate of src/analyze_ventas.py line 16:
`len(r) >= 15 and r[0].strip()`. -/
def analyzeRowKeep (r : List String) : Bool :=
  decide (15 ≤ r.length) && (pyStrip (r.getD 0 "") != "")

/-- Field extraction of `load_ventas` (src/build_dashboard.py lines
161-175) for one valid row. -/
def parseVenta (r : List String) : Venta :=
  { mes := pyStrip (r.getD 0 "")
    nombre := pyStrip (r.getD 1 "")
    asesor := pyStrip (r.getD 2 "")
    lote := pyStrip (r.getD 3 "")
    dia_contacto := pyStrip (r.getD 4 "")
    dia_cierre := pyStrip (r.getD 5 "")
    dias_cierre :=
      let s := pyStrip (r.getD 6 "")
      if s ≠ "" ∧ s.data.all Char.isDigit then some (digitsVal s.data : ℤ) else none
    fuente := pyStrip (r.getD 7 "")
    campana := pyStrip (r.getD 8 "")
    conjunto := pyStrip (r.getD 9 "")
    anuncio := pyStrip (r.getD 10 "")
    tipo_campana := pyStrip (r.getD 11 "")
    precio := parse_cop_value (r.getD 12 "") }

/-- Embeds the row loop of `load_ventas` (src/build_dashboard.py lines
157-176) over the data rows (header already consumed). -/
def load_ventas_rows : List (List String) → List Venta
  | [] => []
  | r :: rs =>
      if dashRowKeep r then parseVenta r :: load_ventas_rows rs
      else load_ventas_rows rs

/-- Embeds `load_ventas` (src/build_dashboard.py lines 149-176) at the file
level: a missing file (`none`) is reported as a soft warning and yields the
empty list; a present file has its header row consumed by `next(reader)`
and its remaining rows processed. -/
def load_ventas : Option (List (List String)) → List Venta
  | none => []
  | some content => load_ventas_rows (content.drop 1)

/-- Embeds `load_json` (src/build_dashboard.py lines 88-90): the function
body is `open(path)` followed by `json.load`; a missing file makes `open`
raise `FileNotFoundError`, which nothing in the function catches. The
result type records the raised exception as `Except.error`. -/
def load_json {α : Type} : Option α → Except String α
  | none => Except.error "FileNotFoundError"
  | some d => Except.ok d

/-! ### Aggregator (src/build_dashboard.py lines 497-558)

Python `defaultdict(lambda: {'count': 0, 'revenue': 0})` dictionaries are
modelled as association lists in insertion order; the loop body that bumps
one bucket is `bumpAssoc`. -/

/-- A `{count, revenue}` rollup bucket. -/
structure Bucket where
  count : ℕ
  revenue : ℚ
deriving DecidableEq, Repr

/-- Bump the bucket of key `k` by one sale of value `p`, inserting an empty
bucket first when the key is new (the `defaultdict` behavior; new keys go
to the end, matching dict insertion order). -/
def bumpAssoc (m : List (String × Bucket)) (k : String) (p : ℚ) :
    List (String × Bucket) :=
  match m with
  | [] => [(k, ⟨1, p⟩)]
  | (k', b) :: rest =>
      if k' = k then (k', ⟨b.count + 1, b.revenue + p⟩) :: rest
      else (k', b) :: bumpAssoc rest k p

/-- The generic count/sum reduce pattern shared by the per-campaign,
per-advisor, per-creative and per-month aggregations: one pass over the
records, bumping the bucket of `key v` by `val v` for each record passing
`keep`. -/
def aggBy {α : Type} (key : α → String) (keep : α → Bool) (val : α → ℚ)
    (vs : List α) : List (String × Bucket) :=
  vs.foldl (fun m v => if keep v then bumpAssoc m (key v) (val v) else m) []

/-- Dictionary read with default `{'count': 0, 'revenue': 0}`, as in
`meta_ventas_by_campaign.get(cn, {'count': 0, 'revenue': 0})`. -/
def lookupB (m : List (String × Bucket)) (k : String) : Bucket :=
  (List.lookup k m).getD ⟨0, 0⟩

/-- Embeds `normalize_camp_name` (src/build_dashboard.py lines 534-535):
`name.strip().lower().replace('  ', ' ')`. The two-space replacement is
Python's single left-to-right non-overlapping pass. -/
def collapse2 : List Char → List Char
  | ' ' :: ' ' :: rest => ' ' :: collapse2 rest
  | c :: rest => c :: collapse2 rest
  | [] => []

/-- Embeds `normalize_camp_name` (src/build_dashboard.py lines 534-535). -/
def normalize_camp_name (name : String) : String :=
  ⟨collapse2 (pyLower (pyStrip name)).data⟩

/-- Embeds the `meta_ventas` filter (src/build_dashboard.py line 510):
sale records whose source channel is exactly `META`. -/
def metaOnly (vs : List Venta) : List Venta :=
  vs.filter (fun v => v.fuente == "META")

/-- Embeds `meta_ventas_by_campaign` (src/build_dashboard.py lines
537-542): bucket by normalized campaign name, skipping records whose
normalized name is empty. The argument is the already-filtered META list. -/
def meta_ventas_by_campaign (metaVentas : List Venta) : List (String × Bucket) :=
  aggBy (fun v => normalize_camp_name v.campana)
    (fun v => normalize_camp_name v.campana != "") (fun v => v.precio) metaVentas

/-- Embeds `meta_ventas_by_asesor` (src/build_dashboard.py lines 545-550):
bucket by the record's `nombre` field (`name = v['nombre']`), skipping
records whose `nombre` is empty or the placeholder `INMOBILIARIA`. -/
def meta_ventas_by_asesor (metaVentas : List Venta) : List (String × Bucket) :=
  aggBy (fun v => v.nombre)
    (fun v => v.nombre != "" && v.nombre != "INMOBILIARIA") (fun v => v.precio)
    metaVentas

/-- Embeds `ventas_total_count` (src/build_dashboard.py line 498). -/
def ventas_total_count (vs : List Venta) : ℕ := vs.length

/-- Embeds `meta_ventas_count` and `meta_ventas_revenue`
(src/build_dashboard.py lines 511-512). -/
def meta_ventas_count (vs : List Venta) : ℕ := (metaOnly vs).length

/-- Revenue summed over the META sale records (line 512). -/
def meta_ventas_revenue (vs : List Venta) : ℚ :=
  ((metaOnly vs).map (fun v => v.precio)).sum

/-- Embeds `meta_avg_ticket` (src/build_dashboard.py line 513):
`meta_ventas_revenue / meta_ventas_count if meta_ventas_count else 0`. -/
def meta_avg_ticket (vs : List Venta) : ℚ :=
  if meta_ventas_count vs ≠ 0 then meta_ventas_revenue vs / meta_ventas_count vs
  else 0

/-- The four-field per-month bucket of `ventas_by_month`
(src/build_dashboard.py line 524). -/
structure MonthBucket where
  total : ℕ
  revenue : ℚ
  meta : ℕ
  meta_revenue : ℚ
deriving DecidableEq, Repr

/-- One iteration of the `ventas_by_month` loop (src/build_dashboard.py
lines 525-531): bump the month bucket of `v.mes`; the META fields are
bumped only when the record's source is `META`. -/
def bumpMonth (m : List (String × MonthBucket)) (v : Venta) :
    List (String × MonthBucket) :=
  match m with
  | [] =>
      [(v.mes,
        ⟨1, v.precio, if v.fuente = "META" then 1 else 0,
         if v.fuente = "META" then v.precio else 0⟩)]
  | (k, b) :: rest =>
      if k = v.mes then
        (k, ⟨b.total + 1, b.revenue + v.precio,
             b.meta + (if v.fuente = "META" then 1 else 0),
             b.meta_revenue + (if v.fuente = "META" then v.precio else 0)⟩) :: rest
      else (k, b) :: bumpMonth rest v

/-- Embeds `ventas_by_month` (src/build_dashboard.py lines 524-531). -/
def ventas_by_month (vs : List Venta) : List (String × MonthBucket) :=
  vs.foldl bumpMonth []

/-- Sum of the per-month sale counts of the by-month aggregate. -/
def sumMonthTotals (m : List (String × MonthBucket)) : ℕ :=
  (m.map (fun p => p.2.total)).sum

/-! ### analyze_ventas.py aggregation (src/analyze_ventas.py) -/

/-- Embeds the row filter of src/analyze_ventas.py line 16. -/
def analyze_valid_rows (rows : List (List String)) : List (List String) :=
  rows.filter analyzeRowKeep

/-- Embeds the META filter of src/analyze_ventas.py line 21. -/
def analyze_meta_rows (rows : List (List String)) : List (List String) :=
  (analyze_valid_rows rows).filter (fun r => pyStrip (r.getD 7 "") == "META")

/-- Embeds the `total_valor` accumulation of src/analyze_ventas.py lines
33-35: sum of `parse_cop(r[12])` over the META rows. -/
def analyze_total_valor (rows : List (List String)) : ℚ :=
  ((analyze_meta_rows rows).map (fun r => parse_cop (r.getD 12 ""))).sum

/-- Embeds the `Ticket promedio` computation of src/analyze_ventas.py line
60: `total_valor / len(meta_rows)`, with no guard on the denominator. The
`ZeroDivisionError` raised when there are no META rows is modelled as
`none`. -/
def ticket_promedio (rows : List (List String)) : Option ℚ :=
  if (analyze_meta_rows rows).length = 0 then none
  else some (analyze_total_valor rows / (analyze_meta_rows rows).length)

/-- Embeds `all_por_mes` (src/analyze_ventas.py lines 122-129): per-month
count/sum over all valid rows, keyed by `r[0].strip()`. -/
def all_por_mes (rows : List (List String)) : List (String × Bucket) :=
  aggBy (fun r => pyStrip (r.getD 0 "")) (fun _ => true)
    (fun r => parse_cop (r.getD 12 "")) (analyze_valid_rows rows)

/-- Sum of the per-key counts of a count/sum aggregate. -/
def sumBucketCounts (m : List (String × Bucket)) : ℕ :=
  (m.map (fun p => p.2.count)).sum

/-! ### Cross-referencer (src/build_dashboard.py lines 560-577) -/

/-- One `campaign_roas` cross-reference entry (src/build_dashboard.py lines
566-575). -/
structure CrossRef where
  name : String
  spend : ℚ
  leads : ℤ
  ventas : ℕ
  revenue : ℚ
  roas : ℚ
  conversion_rate : ℚ
  cost_per_sale : ℚ
deriving DecidableEq, Repr

/-- One iteration of the `campaign_roas` loop (src/build_dashboard.py lines
562-575): look up the campaign's normalized name in the sales aggregate
(default `{'count': 0, 'revenue': 0}`) and derive the ratios, each guarded
by its `if denominator > 0 else 0`. -/
def crossRefOne (mvbc : List (String × Bucket)) (c : Campaign) : CrossRef :=
  let cn := normalize_camp_name c.name
  let vdata := lookupB mvbc cn
  { name := c.name
    spend := c.spend
    leads := c.leads
    ventas := vdata.count
    revenue := vdata.revenue
    roas := if 0 < c.spend then vdata.revenue / c.spend else 0
    conversion_rate :=
      if 0 < c.leads then (vdata.count : ℚ) / (c.leads : ℚ) * 100 else 0
    cost_per_sale :=
      if 0 < vdata.count then c.spend / (vdata.count : ℚ) else 0 }

/-- Embeds the `campaign_roas` list (src/build_dashboard.py lines 561-575):
one entry appended per processed ad campaign. -/
def campaign_roas (cs : List Campaign) (metaVentas : List Venta) : List CrossRef :=
  cs.map (crossRefOne (meta_ventas_by_campaign metaVentas))

/-- Embeds the sort of line 577:
`campaign_roas.sort(key=lambda x: x['revenue'], reverse=True)` — a stable
descending sort by revenue. -/
def campaign_roas_sorted (cs : List Campaign) (metaVentas : List Venta) :
    List CrossRef :=
  (campaign_roas cs metaVentas).mergeSort (fun a b => decide (b.revenue ≤ a.revenue))

/-- Embeds the row loop of `build_campaign_roas_rows`
(src/build_dashboard.py lines 731-766): iterate the cross-reference
entries, `continue` on `cr['spend'] == 0`, append one table row otherwise.
The HTML rendering of a row is out of scope; the emitted row is modelled by
the entry it renders. -/
def build_campaign_roas_rows (l : List CrossRef) : List CrossRef :=
  l.foldl (fun rows cr => if cr.spend = 0 then rows else rows ++ [cr]) []

/-- The filter selecting from `vs` the records that the aggregation
`aggBy key keep val` books under key `k`. -/
def aggHits {α : Type} (key : α → String) (keep : α → Bool) (k : String)
    (vs : List α) : List α :=
  vs.filter (fun v => keep v && (key v == k))

/-! ### Concrete inputs used by the claim theorems -/

/-- The ad record of the end-to-end scenario: campaign `Campaña A`, spend
1000000, a single `lead` action of value 10, no reported cost-per-lead. -/
def c1Raw : RawCampaign :=
  { campaign_name := "Campaña A", campaign_id := "c1", impressions := 0,
    clicks := 0, spend := 1000000, cpc := 0, cpm := 0, ctr := 0, reach := 0,
    frequency := 0, actions := [⟨"lead", 10⟩], cost_per_action_type := [] }

/-- The sales CSV of the end-to-end scenario: a header row and two META
sale rows on campaign `campaña a` with prices `$5.000.000` and
`$3.000.000`. -/
def c1Rows : List (List String) :=
  [List.replicate 13 "h",
   ["Enero", "Cliente Uno", "Asesor Uno", "L1", "01/01", "05/01", "4",
    "META", "campaña a", "conj", "an1", "tipo", "$5.000.000"],
   ["Enero", "Cliente Dos", "Asesor Dos", "L2", "01/01", "06/01", "5",
    "META", "campaña a", "conj", "an1", "tipo", "$3.000.000"]]

/-- The loaded form of the first sale row of `c1Rows`. -/
def c1V1 : Venta :=
  { mes := "Enero", nombre := "Cliente Uno", asesor := "Asesor Uno",
    lote := "L1", dia_contacto := "01/01", dia_cierre := "05/01",
    dias_cierre := some 4, fuente := "META", campana := "campaña a",
    conjunto := "conj", anuncio := "an1", tipo_campana := "tipo",
    precio := 5000000 }

/-- The loaded form of the second sale row of `c1Rows`. -/
def c1V2 : Venta :=
  { mes := "Enero", nombre := "Cliente Dos", asesor := "Asesor Dos",
    lote := "L2", dia_contacto := "01/01", dia_cierre := "06/01",
    dias_cierre := some 5, fuente := "META", campana := "campaña a",
    conjunto := "conj", anuncio := "an1", tipo_campana := "tipo",
    precio := 3000000 }

/-- Ad record with spend 100000, 5 leads and reported cost-per-lead 0. -/
def c3RawA : RawCampaign :=
  { campaign_name := "A", campaign_id := "a", impressions := 0, clicks := 0,
    spend := 100000, cpc := 0, cpm := 0, ctr := 0, reach := 0, frequency := 0,
    actions := [⟨"lead", 5⟩], cost_per_action_type := [] }

/-- Ad record with spend 100000, 0 leads and reported cost-per-lead 0. -/
def c3RawB : RawCampaign :=
  { campaign_name := "B", campaign_id := "b", impressions := 0, clicks := 0,
    spend := 100000, cpc := 0, cpm := 0, ctr := 0, reach := 0, frequency := 0,
    actions := [], cost_per_action_type := [] }

/-- A processed campaign with zero spend and zero leads. -/
def c4camp : Campaign :=
  { name := "Camp X", id := "x", impressions := 0, clicks := 0, spend := 0,
    cpc := 0, cpm := 0, ctr := 0, reach := 0, frequency := 0, leads := 0,
    link_clicks := 0, landing_page_views := 0, video_views := 0,
    post_engagement := 0, messaging := 0, cpl := 0, objective := "OTHER" }

/-- The cross-reference entry produced for `c4camp` against no sales. -/
def c4entry : CrossRef :=
  { name := "Camp X", spend := 0, leads := 0, ventas := 0, revenue := 0,
    roas := 0, conversion_rate := 0, cost_per_sale := 0 }

/-- A CSV row with 14 columns and a non-empty first field. -/
def c5Row : List String := "x" :: List.replicate 13 "y"

/-- A syntactically valid 15-column sales row whose source channel is
`REFERIDO`, so that the dataset has zero META-source rows. -/
def c7Row : List String :=
  ["Enero", "n", "a", "l", "c", "f", "7", "REFERIDO", "camp", "conj",
   "anun", "tipo", "$1.000.000", "x", "y"]

/-- A META sale row whose buyer-name column (index 1) is `Juan Perez` and
whose advisor column (index 2) is `Maria Gomez`. -/
def c9Row : List String :=
  ["Enero", "Juan Perez", "Maria Gomez", "L1", "c", "f", "3", "META",
   "camp", "conj", "anun", "tipo", "$1.000.000"]

/-- A processed campaign with positive spend. -/
def c10campA : Campaign :=
  { name := "Camp P", id := "p", impressions := 0, clicks := 0, spend := 5,
    cpc := 0, cpm := 0, ctr := 0, reach := 0, frequency := 0, leads := 0,
    link_clicks := 0, landing_page_views := 0, video_views := 0,
    post_engagement := 0, messaging := 0, cpl := 0, objective := "OTHER" }

/-- A processed campaign with zero spend. -/
def c10campB : Campaign :=
  { name := "Camp Z", id := "z", impressions := 0, clicks := 0, spend := 0,
    cpc := 0, cpm := 0, ctr := 0, reach := 0, frequency := 0, leads := 0,
    link_clicks := 0, landing_page_views := 0, video_views := 0,
    post_engagement := 0, messaging := 0, cpl := 0, objective := "OTHER" }

/-- Campaign list mixing positive and zero spend. -/
def c10cs : List Campaign := [c10campA, c10campB]

/-! ### Dictionary-aggregation lemmas -/

theorem lookupB_nil (k : String) : lookupB [] k = ⟨0, 0⟩ := rfl

theorem lookupB_cons (k' : String) (b : Bucket) (m : List (String × Bucket))
    (k : String) : lookupB ((k', b) :: m) k = if k = k' then b else lookupB m k := by
  rcases eq_or_ne k k' with h | h
  · subst h
    simp [lookupB, List.lookup]
  · have hb : (k == k') = false := by simpa using h
    simp [lookupB, List.lookup, hb, h]

theorem lookupB_bumpAssoc_self (m : List (String × Bucket)) (k : String) (p : ℚ) :
    lookupB (bumpAssoc m k p) k =
      ⟨(lookupB m k).count + 1, (lookupB m k).revenue + p⟩ := by
  induction m with
  | nil => simp [bumpAssoc, lookupB_cons, lookupB_nil]
  | cons hd tl ih =>
      obtain ⟨k', b⟩ := hd
      rcases eq_or_ne k' k with h | h
      · subst h
        simp [bumpAssoc, lookupB_cons]
      · simp [bumpAssoc, h, lookupB_cons, Ne.symm h, ih]

theorem lookupB_bumpAssoc_ne (m : List (String × Bucket)) (k k' : String) (p : ℚ)
    (h : k' ≠ k) : lookupB (bumpAssoc m k p) k' = lookupB m k' := by
  induction m with
  | nil => simp [bumpAssoc, lookupB_cons, h, lookupB_nil]
  | cons hd tl ih =>
      obtain ⟨k0, b⟩ := hd
      rcases eq_or_ne k0 k with h0 | h0
      · subst h0
        simp [bumpAssoc, lookupB_cons, h]
      · simp [bumpAssoc, h0, lookupB_cons, ih]

theorem lookupB_aggBy_go {α : Type} (key : α → String) (keep : α → Bool)
    (val : α → ℚ) (vs : List α) (m : List (String × Bucket)) (k : String) :
    lookupB (vs.foldl (fun m v => if keep v then bumpAssoc m (key v) (val v) else m) m) k =
      ⟨(lookupB m k).count + (aggHits key keep k vs).length,
       (lookupB m k).revenue + ((aggHits key keep k vs).map val).sum⟩ := by
  induction vs generalizing m with
  | nil => simp [aggHits]
  | cons v vs ih =>
      rw [List.foldl_cons]
      cases hkeep : keep v with
      | false =>
          have hfilter : aggHits key keep k (v :: vs) = aggHits key keep k vs := by
            simp [aggHits, List.filter_cons, hkeep]
          rw [hfilter, if_neg (by simp)]
          exact ih m
      | true =>
          rw [if_pos rfl]
          rcases eq_or_ne (key v) k with hk | hk
          · have h1 : lookupB (bumpAssoc m (key v) (val v)) k =
                ⟨(lookupB m k).count + 1, (lookupB m k).revenue + val v⟩ := by
              rw [← hk]
              exact lookupB_bumpAssoc_self m (key v) (val v)
            have h2 := ih (bumpAssoc m (key v) (val v))
            rw [h1] at h2
            rw [h2]
            have hfilter : aggHits key keep k (v :: vs) = v :: aggHits key keep k vs := by
              simp [aggHits, List.filter_cons, hkeep, hk]
            rw [hfilter]
            simp only [List.length_cons, List.map_cons, List.sum_cons, Bucket.mk.injEq]
            exact ⟨by omega, by ring⟩
          · have hne : (key v == k) = false := beq_eq_false_iff_ne.mpr hk
            have h1 : lookupB (bumpAssoc m (key v) (val v)) k = lookupB m k :=
              lookupB_bumpAssoc_ne m (key v) k (val v) (Ne.symm hk)
            have h2 := ih (bumpAssoc m (key v) (val v))
            rw [h1] at h2
            rw [h2]
            have hfilter : aggHits key keep k (v :: vs) = aggHits key keep k vs := by
              simp [aggHits, List.filter_cons, hkeep, hne]
            rw [hfilter]

/-- Characterization of the generic aggregator: the bucket of key `k`
counts exactly the records booked under `k` and sums their values. -/
theorem lookupB_aggBy {α : Type} (key : α → String) (keep : α → Bool)
    (val : α → ℚ) (vs : List α) (k : String) :
    lookupB (aggBy key keep val vs) k =
      ⟨(aggHits key keep k vs).length, ((aggHits key keep k vs).map val).sum⟩ := by
  have h := lookupB_aggBy_go key keep val vs [] k
  simpa [aggBy, lookupB_nil] using h

theorem sumBucketCounts_bumpAssoc (m : List (String × Bucket)) (k : String)
    (p : ℚ) : sumBucketCounts (bumpAssoc m k p) = sumBucketCounts m + 1 := by
  induction m with
  | nil => simp [bumpAssoc, sumBucketCounts]
  | cons hd tl ih =>
      obtain ⟨k', b⟩ := hd
      rcases eq_or_ne k' k with h | h
      · subst h
        simp [bumpAssoc, sumBucketCounts]
        omega
      · simp [bumpAssoc, h, sumBucketCounts] at ih ⊢
        omega

theorem sumBucketCounts_aggBy_go {α : Type} (key : α → String) (keep : α → Bool)
    (val : α → ℚ) (vs : List α) (m : List (String × Bucket)) :
    sumBucketCounts
        (vs.foldl (fun m v => if keep v then bumpAssoc m (key v) (val v) else m) m) =
      sumBucketCounts m + (vs.filter keep).length := by
  induction vs generalizing m with
  | nil => simp
  | cons v vs ih =>
      rw [List.foldl_cons]
      cases hkeep : keep v with
      | false =>
          have hfilter : (v :: vs).filter keep = vs.filter keep := by
            simp [List.filter_cons, hkeep]
          rw [hfilter, if_neg (by simp)]
          exact ih m
      | true =>
          have hfilter : (v :: vs).filter keep = v :: vs.filter keep := by
            simp [List.filter_cons, hkeep]
          rw [hfilter, if_pos rfl, ih (bumpAssoc m (key v) (val v)),
            sumBucketCounts_bumpAssoc]
          simp only [List.length_cons]
          omega

/-- Summing the per-key counts of a generic aggregate gives the number of
records passing its filter. -/
theorem sumBucketCounts_aggBy {α : Type} (key : α → String) (keep : α → Bool)
    (val : α → ℚ) (vs : List α) :
    sumBucketCounts (aggBy key keep val vs) = (vs.filter keep).length := by
  have h := sumBucketCounts_aggBy_go key keep val vs []
  simpa [aggBy, sumBucketCounts] using h

theorem sumMonthTotals_bumpMonth (m : List (String × MonthBucket)) (v : Venta) :
    sumMonthTotals (bumpMonth m v) = sumMonthTotals m + 1 := by
  induction m with
  | nil => simp [bumpMonth, sumMonthTotals]
  | cons hd tl ih =>
      obtain ⟨k, b⟩ := hd
      rcases eq_or_ne k v.mes with h | h
      · simp [bumpMonth, h, sumMonthTotals]
        omega
      · simp [bumpMonth, h, sumMonthTotals] at ih ⊢
        omega

theorem sumMonthTotals_foldl (vs : List Venta) (m : List (String × MonthBucket)) :
    sumMonthTotals (vs.foldl bumpMonth m) = sumMonthTotals m + vs.length := by
  induction vs generalizing m with
  | nil => simp
  | cons v vs ih =>
      rw [List.foldl_cons, ih (bumpMonth m v), sumMonthTotals_bumpMonth]
      simp only [List.length_cons]
      omega

theorem build_campaign_roas_rows_go (l : List CrossRef) (acc : List CrossRef) :
    l.foldl (fun rows cr => if cr.spend = 0 then rows else rows ++ [cr]) acc =
      acc ++ l.filter (fun cr => cr.spend != 0) := by
  induction l generalizing acc with
  | nil => simp
  | cons cr l ih =>
      rw [List.foldl_cons]
      rcases eq_or_ne cr.spend 0 with h | h
      · simp [h, ih]
      · simp [h, ih, List.filter_cons]

/-- The emitted ROAS table rows are exactly the cross-reference entries
with nonzero spend, in order. -/
theorem build_campaign_roas_rows_eq_filter (l : List CrossRef) :
    build_campaign_roas_rows l = l.filter (fun cr => cr.spend != 0) := by
  have h := build_campaign_roas_rows_go l []
  simpa [build_campaign_roas_rows] using h

/-! ### Claim theorems -/

/-- C2: the currency parser strips surrounding whitespace, removes every
`$` and `.`, replaces `,` with `.`, then attempts numeric conversion,
returning 0 on any failure (it is a total function, so it never raises);
`parse_cop_value` is the same function; and the four quoted evaluations
hold: `$45.626.500` parses to 45626500, while the empty string, `abc` and
`$0` all parse to 0. -/
theorem claim_C2 :
    (∀ s : String, parse_cop s =
      (pyFloat? (replaceChar ',' '.' (removeChar '.' (removeChar '$' (pyStrip s))))).getD 0) ∧
    (∀ s : String, parse_cop_value s = parse_cop s) ∧
    parse_cop "$45.626.500" = 45626500 ∧ parse_cop "" = 0 ∧
    parse_cop "abc" = 0 ∧ parse_cop "$0" = 0 := by
  refine ⟨fun s => rfl, fun s => rfl, ?_, ?_, ?_, ?_⟩ <;> decide

/-- C3: the derived CPL of a processed ad record equals the
platform-reported cost-per-lead when that report is nonzero; when the
report is exactly zero and the lead count is positive it is `spend/leads`;
and when the report is zero and the lead count is zero it is 0, with no
division performed. -/
theorem claim_C3 (c : RawCampaign) :
    (get_cost_per_action c.cost_per_action_type "lead" ≠ 0 →
      (processCampaign c).cpl = get_cost_per_action c.cost_per_action_type "lead") ∧
    (get_cost_per_action c.cost_per_action_type "lead" = 0 →
      0 < get_action_value c.actions "lead" →
      (processCampaign c).cpl = c.spend / get_action_value c.actions "lead") ∧
    (get_cost_per_action c.cost_per_action_type "lead" = 0 →
      get_action_value c.actions "lead" = 0 →
      (processCampaign c).cpl = 0) := by
  refine ⟨?_, ?_, ?_⟩
  · intro h
    simp [processCampaign, h]
  · intro h hl
    simp [processCampaign, h, hl]
  · intro h hl
    simp [processCampaign, h, hl]

/-- Witness for C3 at the two quoted inputs: spend 100000, 5 leads and
reported CPL 0 gives derived CPL 20000; spend 100000, 0 leads and reported
CPL 0 gives derived CPL 0. -/
theorem claim_C3_witness :
    (processCampaign c3RawA).cpl = 20000 ∧ (processCampaign c3RawB).cpl = 0 := by
  constructor
  · have h := (claim_C3 c3RawA).2.1 (by decide) (by decide)
    rw [h]
    have h5 : get_action_value c3RawA.actions "lead" = 5 := by decide
    have hs : c3RawA.spend = 100000 := by decide
    rw [h5, hs]
    norm_num
  · exact (claim_C3 c3RawB).2.2 (by decide) (by decide)

/-- Counterexample to C5 as stated: the three sales-CSV loaders do not
apply one identical row-validity predicate. A 14-column row with a
non-empty first field is kept by the build_dashboard and audit_ventas
filters (minimum 13 columns) but discarded by the analyze_ventas filter
(minimum 15 columns). -/
theorem claim_C5_counterexample :
    dashRowKeep c5Row = true ∧ auditRowKeep c5Row = true ∧
    analyzeRowKeep c5Row = false ∧ analyze_valid_rows [c5Row] = [] := by
  decide

/-- C5 (amended): every sales-CSV loader keeps a row iff it has at least
that loader's minimum column count and a non-empty stripped first field —
audit_ventas uses exactly the build_dashboard predicate (minimum 13),
analyze_ventas strengthens it to minimum 15 — and `load_ventas` keeps
exactly the rows passing its predicate, so a failing row is excluded from
every downstream aggregate. -/
theorem claim_C5 :
    (∀ r : List String, auditRowKeep r = dashRowKeep r) ∧
    (∀ r : List String, analyzeRowKeep r = (dashRowKeep r && decide (15 ≤ r.length))) ∧
    (∀ rows : List (List String),
      load_ventas_rows rows = (rows.filter dashRowKeep).map parseVenta) := by
  refine ⟨fun r => rfl, fun r => ?_, fun rows => ?_⟩
  · rcases le_or_lt 15 r.length with h | h
    · have h13 : 13 ≤ r.length := by omega
      simp [analyzeRowKeep, dashRowKeep, h, h13]
    · have h15 : ¬ 15 ≤ r.length := by omega
      simp [analyzeRowKeep, dashRowKeep, h15]
  · induction rows with
    | nil => rfl
    | cons r rs ih =>
        cases h : dashRowKeep r with
        | false => simp [load_ventas_rows, List.filter_cons, h, ih]
        | true => simp [load_ventas_rows, List.filter_cons, h, ih]

/-- Counterexample to C6 as stated: not every loader substitutes an empty
record set for a missing input file. `load_json` — through which the
campaign, daily and ad-set insight files are loaded at module level — has
no missing-file handling: `open` raises `FileNotFoundError`, modelled as
the error outcome, so the pipeline aborts instead of proceeding. -/
theorem claim_C6_counterexample :
    load_json (none : Option (List RawCampaign)) =
      Except.error "FileNotFoundError" := rfl

/-- C6 (amended): the sales-CSV loader `load_ventas` recovers from a
missing file with a soft warning and an empty record set, but the JSON
loader `load_json` raises on a missing file, which is fatal to the
pipeline's module-level loads. -/
theorem claim_C6 :
    load_ventas (none : Option (List (List String))) = [] ∧
    load_json (none : Option (List RawCampaign)) =
      Except.error "FileNotFoundError" :=
  ⟨rfl, rfl⟩

/-- C7: the claim that the aggregation and reporting computations never
raise on a valid sales CSV is right as a design intent but violated by
src/analyze_ventas.py line 60, which divides by `len(meta_rows)` without a
guard: on a dataset with zero META-source rows the `Ticket promedio`
computation raises `ZeroDivisionError` (modelled as `none`), while the
corresponding guarded computation `meta_avg_ticket` in build_dashboard.py
degrades to 0 on the same input. -/
theorem claim_C7 :
    ticket_promedio [c7Row] = none ∧
    meta_avg_ticket (load_ventas_rows [c7Row]) = 0 := by
  constructor
  · decide
  · decide

/-- C8: summing the per-month sale counts over the by-month aggregate
equals the total number of sale records — every record lands in exactly
one month bucket. This holds both for `ventas_by_month` against
`ventas_total_count` in build_dashboard.py and for `all_por_mes` against
the filtered row count in analyze_ventas.py. -/
theorem claim_C8 :
    (∀ vs : List Venta, sumMonthTotals (ventas_by_month vs) = ventas_total_count vs) ∧
    (∀ rows : List (List String),
      sumBucketCounts (all_por_mes rows) = (analyze_valid_rows rows).length) := by
  constructor
  · intro vs
    have h := sumMonthTotals_foldl vs []
    simpa [ventas_by_month, sumMonthTotals, ventas_total_count] using h
  · intro rows
    have h := sumBucketCounts_aggBy (fun r => pyStrip (r.getD 0 ""))
      (fun _ => true) (fun r => parse_cop (r.getD 12 "")) (analyze_valid_rows rows)
    simpa [all_por_mes, List.filter_true] using h

/-- Counterexample to C9 as stated: the per-advisor aggregation does not
group by the advisor-name field (third CSV column). For a META row whose
buyer-name column is `Juan Perez` and whose advisor column is
`Maria Gomez`, the aggregate has no bucket for `Maria Gomez` and books the
sale under `Juan Perez`. -/
theorem claim_C9_counterexample :
    (parseVenta c9Row).nombre = "Juan Perez" ∧
    (parseVenta c9Row).asesor = "Maria Gomez" ∧
    List.lookup "Maria Gomez"
      (meta_ventas_by_asesor (metaOnly (load_ventas_rows [c9Row]))) = none ∧
    (lookupB (meta_ventas_by_asesor (metaOnly (load_ventas_rows [c9Row])))
      "Juan Perez").count = 1 := by
  decide

/-- C9 (amended): the per-advisor aggregation groups META sale records by
the `nombre` field (the second CSV column, labelled buyer name by the
loader), not the `asesor` field: for every key the bucket counts and sums
exactly the META records whose `nombre` equals the key and is neither
empty nor the sentinel placeholder `INMOBILIARIA`. -/
theorem claim_C9 (vs : List Venta) (k : String) :
    lookupB (meta_ventas_by_asesor (metaOnly vs)) k =
      ⟨(vs.filter (fun v =>
          ((v.nombre != "" && v.nombre != "INMOBILIARIA") && (v.nombre == k)) &&
            (v.fuente == "META"))).length,
       ((vs.filter (fun v =>
          ((v.nombre != "" && v.nombre != "INMOBILIARIA") && (v.nombre == k)) &&
            (v.fuente == "META"))).map (fun v => v.precio)).sum⟩ := by
  have h := lookupB_aggBy (fun v : Venta => v.nombre)
    (fun v => v.nombre != "" && v.nombre != "INMOBILIARIA") (fun v => v.precio)
    (metaOnly vs) k
  simp only [meta_ventas_by_asesor]
  rw [h]
  simp only [aggHits, metaOnly, List.filter_filter]

/-- C4: the cross-referencer emits exactly one entry per ad campaign (a
one-sided left join on the normalized campaign name); a campaign none of
whose sale records match its normalized name gets sale-count 0, revenue 0
and ROAS 0; and each ratio with a zero denominator (ROAS when spend is 0,
conversion rate when leads is 0, cost-per-sale when the sale count is 0)
is 0, with no division performed. -/
theorem claim_C4 (cs : List Campaign) (vs : List Venta) :
    (campaign_roas_sorted cs vs).length = cs.length ∧
    ∀ e ∈ campaign_roas_sorted cs vs,
      (e.spend = 0 → e.roas = 0) ∧
      (e.leads = 0 → e.conversion_rate = 0) ∧
      (e.ventas = 0 → e.cost_per_sale = 0) ∧
      ((∀ v ∈ vs, normalize_camp_name v.campana ≠ normalize_camp_name e.name) →
        e.ventas = 0 ∧ e.revenue = 0 ∧ e.roas = 0) := by
  constructor
  · rw [campaign_roas_sorted, List.length_mergeSort, campaign_roas, List.length_map]
  · intro e he
    rw [campaign_roas_sorted, List.mem_mergeSort] at he
    obtain ⟨c, hc, rfl⟩ := List.mem_map.mp he
    refine ⟨?_, ?_, ?_, ?_⟩
    · intro h
      simp only [crossRefOne] at h ⊢
      simp [h]
    · intro h
      simp only [crossRefOne] at h ⊢
      simp [h]
    · intro h
      simp only [crossRefOne] at h ⊢
      simp [h]
    · intro hnone
      have hnil : aggHits (fun v : Venta => normalize_camp_name v.campana)
          (fun v => normalize_camp_name v.campana != "")
          (normalize_camp_name c.name) vs = [] := by
        refine List.filter_eq_nil_iff.mpr ?_
        intro v hv hcontra
        simp only [Bool.and_eq_true, bne_iff_ne, beq_iff_eq] at hcontra
        exact hnone v hv hcontra.2
      have hagg := lookupB_aggBy (fun v : Venta => normalize_camp_name v.campana)
        (fun v => normalize_camp_name v.campana != "") (fun v => v.precio) vs
        (normalize_camp_name c.name)
      rw [hnil] at hagg
      simp only [List.length_nil, List.map_nil, List.sum_nil] at hagg
      refine ⟨?_, ?_, ?_⟩
      · simp only [crossRefOne, meta_ventas_by_campaign]
        rw [hagg]
      · simp only [crossRefOne, meta_ventas_by_campaign]
        rw [hagg]
      · simp only [crossRefOne, meta_ventas_by_campaign]
        rw [hagg]
        simp [zero_div]

/-- Witness for C4 at a concrete campaign with zero spend and zero leads
and an empty sale list: the cross-reference has exactly one entry, whose
sale count, revenue, ROAS, conversion rate and cost-per-sale are all 0. -/
theorem claim_C4_witness :
    (campaign_roas_sorted [c4camp] []).length = 1 ∧
    c4entry.ventas = 0 ∧ c4entry.revenue = 0 ∧ c4entry.roas = 0 ∧
    c4entry.conversion_rate = 0 ∧ c4entry.cost_per_sale = 0 := by
  have h := claim_C4 [c4camp] []
  have hmem : c4entry ∈ campaign_roas_sorted [c4camp] [] := by
    rw [campaign_roas_sorted, List.mem_mergeSort]
    decide
  have hp := h.2 c4entry hmem
  refine ⟨h.1, ?_, ?_, ?_, ?_, ?_⟩
  · exact (hp.2.2.2 (by simp)).1
  · exact (hp.2.2.2 (by simp)).2.1
  · exact hp.1 (by decide)
  · exact hp.2.1 (by decide)
  · exact hp.2.2.1 (by decide)

/-- C10: the rendered campaign-ROAS table omits every cross-reference
entry with zero ad spend — `build_campaign_roas_rows` emits one row per
entry with positive spend (spend is non-negative in the data model) and
silently skips the rest, even though the cross-referencer emits one entry
per ad campaign. -/
theorem claim_C10 (cs : List Campaign) (vs : List Venta)
    (h : ∀ c ∈ cs, 0 ≤ c.spend) :
    build_campaign_roas_rows (campaign_roas_sorted cs vs) =
      (campaign_roas_sorted cs vs).filter (fun e => decide (0 < e.spend)) ∧
    (campaign_roas_sorted cs vs).length = cs.length := by
  constructor
  · rw [build_campaign_roas_rows_eq_filter]
    refine List.filter_congr ?_
    intro e he
    have hsp : 0 ≤ e.spend := by
      rw [campaign_roas_sorted, List.mem_mergeSort] at he
      obtain ⟨c, hc, rfl⟩ := List.mem_map.mp he
      exact h c hc
    rcases lt_or_eq_of_le hsp with hlt | heq
    · have h1 : (e.spend != 0) = true := by
        simpa using ne_of_gt hlt
      have h2 : decide (0 < e.spend) = true := decide_eq_true hlt
      rw [h1, h2]
    · have h1 : (e.spend != 0) = false := by
        simp [← heq]
      have h2 : decide (0 < e.spend) = false := by
        simp [← heq]
      rw [h1, h2]
  · rw [campaign_roas_sorted, List.length_mergeSort, campaign_roas, List.length_map]

/-- Witness for C10 on a two-campaign list with spends 5 and 0 and no sale
records: the emitted rows are exactly the positive-spend entries while the
cross-reference itself has both entries. -/
theorem claim_C10_witness :
    build_campaign_roas_rows (campaign_roas_sorted c10cs []) =
      (campaign_roas_sorted c10cs []).filter (fun e => decide (0 < e.spend)) ∧
    (campaign_roas_sorted c10cs []).length = 2 := by
  have h := claim_C10 c10cs [] (by decide)
  exact ⟨h.1, h.2⟩

/-- C1: end-to-end, for the ad record `Campaña A` (spend 1000000, one
`lead` action of value 10, no reported cost-per-lead) and two META sale
records on campaign `campaña a` with prices 5000000 and 3000000, the
cross-reference entry for `Campaña A` reports leads 10, ventas 2, revenue
8000000, ROAS 8.0, cost-per-sale 500000 and conversion rate 20.0. -/
theorem claim_C1 :
    campaign_roas_sorted [processCampaign c1Raw]
        (metaOnly (load_ventas (some c1Rows))) =
      [{ name := "Campaña A", spend := 1000000, leads := 10, ventas := 2,
         revenue := 8000000, roas := 8, conversion_rate := 20,
         cost_per_sale := 500000 }] := by
  have hload : load_ventas (some c1Rows) = [c1V1, c1V2] := by decide
  have hmeta : metaOnly [c1V1, c1V2] = [c1V1, c1V2] := by decide
  have hn1 : normalize_camp_name "campaña a" = "campaña a" := by decide
  have hsum : (5000000 : ℚ) + 3000000 = 8000000 := by norm_num
  have hagg : meta_ventas_by_campaign [c1V1, c1V2] =
      [("campaña a", (⟨2, 8000000⟩ : Bucket))] := by
    simp [meta_ventas_by_campaign, aggBy, bumpAssoc, c1V1, c1V2, hn1, hsum]
  have hname : (processCampaign c1Raw).name = "Campaña A" := rfl
  have hspend : (processCampaign c1Raw).spend = 1000000 := rfl
  have hleads : (processCampaign c1Raw).leads = 10 := by decide
  have hn2 : normalize_camp_name "Campaña A" = "campaña a" := by decide
  have hcross : crossRefOne [("campaña a", (⟨2, 8000000⟩ : Bucket))]
      (processCampaign c1Raw) =
      { name := "Campaña A", spend := 1000000, leads := 10, ventas := 2,
        revenue := 8000000, roas := 8, conversion_rate := 20,
        cost_per_sale := 500000 } := by
    norm_num [crossRefOne, hname, hspend, hleads, hn2, lookupB_cons,
      CrossRef.mk.injEq]
  rw [hload, hmeta]
  simp only [campaign_roas_sorted, campaign_roas, List.map_cons, List.map_nil]
  rw [hagg, hcross, List.mergeSort_singleton]

end MetaAds
